import Mathlib

/-!
Shallow embedding of `rtc-tunnel.py` (samblenny/webrtc-console): a localhost
tunnel that forwards one TCP port and two UDP ports between 127.0.0.1 and a
fixed remote host, running in a single asyncio event loop.

Modelling conventions:
- Bytes are `Nat`, payloads are `List Nat` (contents are opaque to the relay).
- Socket addresses are `String × Nat` (host string, port), compared for
  equality exactly as the Python tuples are.
- asyncio callbacks and awaits are modelled as pure functions over explicit
  event traces / state records; each definition cites the source lines it
  embeds.
-/

/-- A (host, port) pair as produced by Python socket addresses. -/
abbrev Addr : Type := String × Nat

/-- The effect of one `datagram_received` callback invocation:
`sendto(payload, dest)` was called, the packet fell through the address
filter and was dropped, or the callback dereferenced a transport field that
is still `None` (Python raises `AttributeError`). -/
inductive UdpEffect : Type
  | sent (payload : List Nat) (dest : Addr)
  | dropped
  | attrError
  deriving DecidableEq, Repr

/-- Classification of a `UdpEffect`, forgetting payload and destination:
used to state that the forward-or-drop decision ignores payload contents. -/
inductive UdpDecision : Type
  | forward
  | drop
  | fail
  deriving DecidableEq, Repr

/-- The decision a `UdpEffect` embodies. -/
def UdpEffect.decision : UdpEffect → UdpDecision
  | .sent _ _ => .forward
  | .dropped => .drop
  | .attrError => .fail

/-- State of a `UDPProxy` instance (rtc-tunnel.py lines 116-130): the
configuration fields set in `__init__` plus the two transport fields that
start as `None` and are assigned one after the other inside `start`.
A live transport carries no data we need, so it is modelled as `Unit`. -/
structure UDPProxy : Type where
  local_port : Nat
  remote_host : String
  remote_port : Nat
  remote_addr : Addr
  local_transport : Option Unit
  remote_transport : Option Unit
  deriving DecidableEq, Repr

/-- `UDPProxy.__init__` (lines 124-130): record the ports, precompute
`remote_addr = (remote_host, remote_port)`, and set both transports to
`None`. -/
def UDPProxy.init (local_port : Nat) (remote_host : String) (remote_port : Nat) :
    UDPProxy :=
  { local_port := local_port
    remote_host := remote_host
    remote_port := remote_port
    remote_addr := (remote_host, remote_port)
    local_transport := none
    remote_transport := none }

/-- First half of `UDPProxy.start` (lines 135-142): the loopback-facing
datagram endpoint is created and `self.local_transport` is assigned. At
this point the local socket is already receiving, but
`self.remote_transport` is still `None` until the second
`create_datagram_endpoint` await completes. -/
def UDPProxy.startPhase1 (p : UDPProxy) : UDPProxy :=
  { p with local_transport := some () }

/-- Second half of `UDPProxy.start` (lines 144-151): the remote-facing
datagram endpoint is created and `self.remote_transport` is assigned. -/
def UDPProxy.startPhase2 (p : UDPProxy) : UDPProxy :=
  { p with remote_transport := some () }

/-- A `UDPProxy` that has completed both endpoint creations of `start`. -/
def UDPProxy.started (local_port : Nat) (remote_host : String) (remote_port : Nat) :
    UDPProxy :=
  (UDPProxy.init local_port remote_host remote_port).startPhase1.startPhase2

/-- `LocalUDPProtocol.datagram_received` (lines 168-171): a datagram `data`
arrives on the loopback-facing socket from `addr`. If `addr[0] ==
"127.0.0.1"` the code calls `self.proxy.remote_transport.sendto(data,
self.proxy.remote_addr)`; otherwise it falls through (silent drop). When
`remote_transport` is `None` the attribute access `.sendto` raises. -/
def LocalUDPProtocol.datagram_received (proxy : UDPProxy) (data : List Nat)
    (addr : Addr) : UdpEffect :=
  if addr.1 = "127.0.0.1" then
    match proxy.remote_transport with
    | some _ => .sent data proxy.remote_addr
    | none => .attrError
  else .dropped

/-- `RemoteUDPProtocol.datagram_received` (lines 180-185): a datagram `data`
arrives on the remote-facing socket from `addr`. If `addr ==
self.proxy.remote_addr` the code calls `self.proxy.local_transport.sendto(
data, ("127.0.0.1", self.proxy.local_port))`; otherwise it falls through
(silent drop). -/
def RemoteUDPProtocol.datagram_received (proxy : UDPProxy) (data : List Nat)
    (addr : Addr) : UdpEffect :=
  if addr = proxy.remote_addr then
    match proxy.local_transport with
    | some _ => .sent data ("127.0.0.1", proxy.local_port)
    | none => .attrError
  else .dropped

/-- One iteration's worth of I/O events seen by `tcp_pipe` (lines 63-77).
`recvOk bytes drainOk`: `await reader.read(4096)` returned `bytes` (an empty
result means end-of-stream); if `bytes` is nonempty the chunk is passed to
`writer.write` and `drainOk` tells whether the following
`await writer.drain()` succeeded or raised. `recvErr`: the read itself
raised. A write failure surfaces at `drain` (StreamWriter.write only
buffers), so write errors are the `drainOk = false` case. -/
inductive PipeEvent : Type
  | recvOk (bytes : List Nat) (drainOk : Bool)
  | recvErr
  deriving DecidableEq, Repr

/-- How the `while True` loop of `tcp_pipe` terminated. -/
inductive PipeExit : Type
  | eof
  | readError
  | drainError
  deriving DecidableEq, Repr

/-- `reader.read(4096)` bounds every successful read to 4096 bytes. -/
def READ_SIZE : Nat := 4096

/-- The `while True` loop of `tcp_pipe` (lines 66-71) run against a trace of
I/O events: returns the concatenation of all chunks passed to
`writer.write`, and how the loop exited — `none` when the trace ran out
with the coroutine still suspended awaiting its next read. -/
def tcp_pipe_loop : List PipeEvent → List Nat × Option PipeExit
  | [] => ([], none)
  | PipeEvent.recvErr :: _ => ([], some PipeExit.readError)
  | PipeEvent.recvOk [] _ :: _ => ([], some PipeExit.eof)
  | PipeEvent.recvOk (b :: bs) drainOk :: rest =>
      if drainOk then
        let r := tcp_pipe_loop rest
        ((b :: bs) ++ r.1, r.2)
      else ((b :: bs), some PipeExit.drainError)

/-- Result of one `tcp_pipe` coroutine: the bytes it wrote to its
destination writer, how (whether) its loop exited, whether the `finally`
block closed the destination writer, and whether the coroutine re-raises an
exception to its awaiter. -/
structure PipeResult : Type where
  written : List Nat
  exit : Option PipeExit
  writerClosed : Bool
  raises : Bool
  deriving DecidableEq, Repr

/-- The `finally` block of `tcp_pipe` (lines 72-77): `writer.close()` always
runs, then `await writer.wait_closed()` sits inside its own
`try/except Exception: pass`, so `waitClosedRaises` is swallowed and only
an exception from the loop body propagates to the caller. -/
def pipe_finally (_waitClosedRaises : Bool) (loopRaised : Bool) : Bool × Bool :=
  (true, loopRaised)

/-- `tcp_pipe reader-events waitClosedRaises` (lines 63-77): run the copy
loop over the event trace; when the loop exits (normally or by exception)
the `finally` block runs. While the trace is unfinished the coroutine is
still suspended and the `finally` has not run. -/
def tcp_pipe (events : List PipeEvent) (waitClosedRaises : Bool) : PipeResult :=
  match tcp_pipe_loop events with
  | (w, none) => { written := w, exit := none, writerClosed := false, raises := false }
  | (w, some e) =>
      let loopRaised := e ≠ PipeExit.eof
      let fin := pipe_finally waitClosedRaises loopRaised
      { written := w, exit := some e, writerClosed := fin.1, raises := fin.2 }

/-- An event trace in which every read succeeds with `drain` succeeding,
followed by a zero-length read: the sender transmitted exactly the chunks
`cs` and then closed its end. -/
def readsThenEof (cs : List (List Nat)) : List PipeEvent :=
  cs.map (fun c => PipeEvent.recvOk c true) ++ [PipeEvent.recvOk [] true]

/-- Outcome of `asyncio.open_connection` in `handle_tcp_client` (lines
84-86): either both remote streams exist, or it raised (connection refused,
timeout, DNS failure). -/
inductive ConnectOutcome : Type
  | ok
  | connectError
  deriving DecidableEq, Repr

/-- The I/O behaviour of one accepted session's two sockets: the event
trace each of the two `tcp_pipe` coroutines reads (client socket for the
client-to-remote pipe, remote socket for the remote-to-client pipe), and
whether each pipe's `wait_closed` await raises during teardown. -/
structure SessionStreams : Type where
  clientEvents : List PipeEvent
  remoteEvents : List PipeEvent
  clientWaitClosedRaises : Bool
  remoteWaitClosedRaises : Bool
  deriving DecidableEq, Repr

/-- Observable outcome of `handle_tcp_client` for one session: bytes
delivered to the remote writer, bytes delivered to the client writer, and
whether each of the session's two sockets ended up closed. -/
structure SessionOutcome : Type where
  toRemote : List Nat
  toClient : List Nat
  clientClosed : Bool
  remoteClosed : Bool
  deriving DecidableEq, Repr

/-- `handle_tcp_client` (lines 80-93): if `open_connection` raises, the
`except` clause closes the client writer and nothing was ever sent. On
success, `gather` runs `tcp_pipe(client_reader, remote_writer)` and
`tcp_pipe(remote_reader, client_writer)`; each pipe closes its destination
writer when it exits, and if either pipe re-raises, `gather` re-raises and
the `except Exception` clause additionally closes the client writer. -/
def handle_tcp_client (connect : ConnectOutcome) (io : SessionStreams) :
    SessionOutcome :=
  match connect with
  | ConnectOutcome.connectError =>
      { toRemote := [], toClient := [], clientClosed := true, remoteClosed := false }
  | ConnectOutcome.ok =>
      let p1 := tcp_pipe io.clientEvents io.remoteWaitClosedRaises
      let p2 := tcp_pipe io.remoteEvents io.clientWaitClosedRaises
      { toRemote := p1.written
        toClient := p2.written
        clientClosed := p2.writerClosed || p1.raises || p2.raises
        remoteClosed := p1.writerClosed }

/-- A connection handler input: the connect outcome plus the session's
socket event traces. -/
structure SessionInput : Type where
  connect : ConnectOutcome
  streams : SessionStreams
  deriving DecidableEq, Repr

/-- The listener started by `start_tcp_forward` (lines 96-109): every
accepted connection gets its own independent `handle_tcp_client`
invocation; the server keeps serving regardless of individual session
outcomes. -/
def serveClients (sessions : List SessionInput) : List SessionOutcome :=
  sessions.map (fun s => handle_tcp_client s.connect s.streams)

/-- One pending read result on a session socket: a successful read of some
bytes (empty = the peer half-closed, i.e. end-of-stream) or a read that
raises. -/
inductive ReadEv : Type
  | data (bytes : List Nat)
  | rerr
  deriving DecidableEq, Repr

/-- Concurrent state of one established TCP session handled by
`handle_tcp_client` (lines 80-93). `cin`/`rin` are the network events still
to arrive on the client and remote sockets; `cbuf`/`rbuf` are the nonempty
chunks already received and sitting in the corresponding `StreamReader`'s
internal buffer (fed by `data_received`, not yet consumed by
`reader.read`); `cClosed`/`rClosed` say whether the tunnel has closed the
client/remote transport; `p1`/`p2` say whether the client-to-remote and
remote-to-client `tcp_pipe` coroutines are still running; `rDeliv`/`cDeliv`
are the bytes relayed so far toward the remote and toward the client. -/
structure SessState : Type where
  cin : List ReadEv
  rin : List ReadEv
  cbuf : List (List Nat)
  rbuf : List (List Nat)
  cClosed : Bool
  rClosed : Bool
  p1 : Bool
  p2 : Bool
  rDeliv : List Nat
  cDeliv : List Nat
  deriving DecidableEq, Repr

/-- The session state right after `asyncio.gather` starts both pipes (line
88): both coroutines running, both transports open, both reader buffers
empty, nothing relayed yet. -/
def SessState.init (cin rin : List ReadEv) : SessState :=
  { cin := cin, rin := rin, cbuf := [], rbuf := [], cClosed := false
    rClosed := false, p1 := true, p2 := true, rDeliv := [], cDeliv := [] }

/-- Interleaved small-step semantics of one session: the two `tcp_pipe`
coroutines (lines 63-77) scheduled by `gather` (line 88), plus the event
loop feeding arriving network data into each `StreamReader`. Pipe 1 is
`tcp_pipe(client_reader, remote_writer)`, pipe 2 is
`tcp_pipe(remote_reader, client_writer)`. asyncio semantics modelled:
`data_received` appends an arriving chunk to the reader's buffer while the
transport is open (`feed_c`/`feed_r`); `reader.read` consumes buffered
chunks first, and buffered data remains readable even after the tunnel has
closed the transport — `transport.close()` runs `connection_lost`, which
calls `feed_eof` and leaves the buffer intact — so `p1_read_buf`/
`p2_read_buf` do not require the transport open; end-of-stream is observed
only once the buffer is drained, either as the peer's half-close arriving
from the network (`p1_eof`/`p2_eof`) or as the EOF fed by our own close
(`p1_closedEof`/`p2_closedEof`); a connection error set on the reader is
raised by `read` immediately, ahead of buffered data (`p1_readErr`/
`p2_readErr`); a `drain` on the destination may fail nondeterministically
(peer reset), terminating the pipe with the consumed chunk not counted as
delivered (`p1_drainErr`/`p2_drainErr`). Every terminating rule runs the
pipe's `finally`, which closes the destination transport. -/
inductive SessStep : SessState → SessState → Prop
  | feed_c (s : SessState) (b : Nat) (bs : List Nat) (t : List ReadEv) :
      s.cClosed = false → s.cin = ReadEv.data (b :: bs) :: t →
      SessStep s { s with cin := t, cbuf := s.cbuf ++ [b :: bs] }
  | feed_r (s : SessState) (b : Nat) (bs : List Nat) (t : List ReadEv) :
      s.rClosed = false → s.rin = ReadEv.data (b :: bs) :: t →
      SessStep s { s with rin := t, rbuf := s.rbuf ++ [b :: bs] }
  | p1_read_buf (s : SessState) (c : List Nat) (t : List (List Nat)) :
      s.p1 = true → s.cbuf = c :: t →
      SessStep s { s with cbuf := t, rDeliv := s.rDeliv ++ c }
  | p1_drainErr (s : SessState) (c : List Nat) (t : List (List Nat)) :
      s.p1 = true → s.cbuf = c :: t →
      SessStep s { s with cbuf := t, p1 := false, rClosed := true }
  | p1_eof (s : SessState) (t : List ReadEv) :
      s.p1 = true → s.cClosed = false → s.cbuf = [] →
      s.cin = ReadEv.data [] :: t →
      SessStep s { s with cin := t, p1 := false, rClosed := true }
  | p1_readErr (s : SessState) (t : List ReadEv) :
      s.p1 = true → s.cClosed = false → s.cin = ReadEv.rerr :: t →
      SessStep s { s with cin := t, p1 := false, rClosed := true }
  | p1_closedEof (s : SessState) :
      s.p1 = true → s.cClosed = true → s.cbuf = [] →
      SessStep s { s with p1 := false, rClosed := true }
  | p2_read_buf (s : SessState) (c : List Nat) (t : List (List Nat)) :
      s.p2 = true → s.rbuf = c :: t →
      SessStep s { s with rbuf := t, cDeliv := s.cDeliv ++ c }
  | p2_drainErr (s : SessState) (c : List Nat) (t : List (List Nat)) :
      s.p2 = true → s.rbuf = c :: t →
      SessStep s { s with rbuf := t, p2 := false, cClosed := true }
  | p2_eof (s : SessState) (t : List ReadEv) :
      s.p2 = true → s.rClosed = false → s.rbuf = [] →
      s.rin = ReadEv.data [] :: t →
      SessStep s { s with rin := t, p2 := false, cClosed := true }
  | p2_readErr (s : SessState) (t : List ReadEv) :
      s.p2 = true → s.rClosed = false → s.rin = ReadEv.rerr :: t →
      SessStep s { s with rin := t, p2 := false, cClosed := true }
  | p2_closedEof (s : SessState) :
      s.p2 = true → s.rClosed = true → s.rbuf = [] →
      SessStep s { s with p2 := false, cClosed := true }

/-- Session invariant: a transport is closed exactly when the pipe writing
to it has terminated (the only close of the remote transport is pipe 1's
`finally`, and of the client transport pipe 2's `finally`). -/
def SessInv (s : SessState) : Prop :=
  (s.rClosed = true ↔ s.p1 = false) ∧ (s.cClosed = true ↔ s.p2 = false)

instance (s : SessState) : Decidable (SessInv s) := by
  unfold SessInv; infer_instance

/-- Outcome of one forwarder task started by `main` (lines 96-109 for
`start_tcp_forward`, 132-159 for `UDPProxy.start`): either its sockets all
bound/resolved and it serves forever, or endpoint creation raised. -/
inductive TaskOutcome : Type
  | serving
  | startFailed
  deriving DecidableEq, Repr

/-- `start_tcp_forward` as a startup task (lines 96-109):
`asyncio.start_server` either binds 127.0.0.1:local_port or raises
`OSError`; on success `serve_forever` never returns. -/
def start_tcp_forward (bindOk : Bool) : TaskOutcome :=
  if bindOk then TaskOutcome.serving else TaskOutcome.startFailed

/-- `UDPProxy.start` as a startup task (lines 132-159): creating the
loopback endpoint can raise (port in use), then creating the remote
endpoint can raise (resolution failure); on success `sleep(inf)` never
returns. -/
def UDPProxy.startTask (localBindOk remoteSetupOk : Bool) : TaskOutcome :=
  if localBindOk then
    if remoteSetupOk then TaskOutcome.serving else TaskOutcome.startFailed
  else TaskOutcome.startFailed

/-- Success/failure of each socket-creation step the three forwarders of
`main` perform (lines 192-208). -/
structure StartEnv : Type where
  httpBindOk : Bool
  rtpLocalBindOk : Bool
  rtpRemoteSetupOk : Bool
  dataLocalBindOk : Bool
  dataRemoteSetupOk : Bool
  deriving DecidableEq, Repr

/-- The three forwarder tasks `main` creates (lines 193-208): one TCP
forward on HTTP_PORT and two UDP proxies on RTP_PORT and DATA_PORT. -/
def mainTasks (e : StartEnv) : List TaskOutcome :=
  [ start_tcp_forward e.httpBindOk,
    UDPProxy.startTask e.rtpLocalBindOk e.rtpRemoteSetupOk,
    UDPProxy.startTask e.dataLocalBindOk e.dataRemoteSetupOk ]

/-- Result of the `main` coroutine (lines 192-215): `await asyncio.gather`
re-raises as soon as any task raises; otherwise every task serves forever
and `main` never returns. -/
inductive MainOutcome : Type
  | runningAll
  | raised
  deriving DecidableEq, Repr

/-- The source's `main` coroutine (lines 192-215) reduced to its
termination behaviour (the name `main` is reserved by Lean for the
executable entry point, hence `tunnelMain`). -/
def tunnelMain (e : StartEnv) : MainOutcome :=
  if (mainTasks e).any (fun t => t = TaskOutcome.startFailed) then
    MainOutcome.raised
  else MainOutcome.runningAll

/-- Observable state of the Python process started by the `__main__` block
(lines 218-229): still running with some number of active forwarder tasks,
or exited with an exit code, the number of forwarders left running, and
whether the usage text was printed. -/
inductive ProcState : Type
  | running (activeForwarders : Nat)
  | exited (code : Nat) (activeForwarders : Nat) (usagePrinted : Bool)
  deriving DecidableEq, Repr

/-- The `__main__` block (lines 218-229): with `len(sys.argv) != 2` it
prints the usage text and calls `sys.exit(1)` before any forwarder exists.
Otherwise `asyncio.run(main(...))` runs; if `main` raises (a startup
failure), `asyncio.run` cancels all remaining tasks, closes the loop and
re-raises, and the uncaught exception terminates the interpreter with the
conventional nonzero exit code 1. Only `KeyboardInterrupt` is caught. -/
def pythonProcess (argv : List String) (e : StartEnv) : ProcState :=
  if argv.length ≠ 2 then ProcState.exited 1 0 true
  else
    match tunnelMain e with
    | MainOutcome.raised => ProcState.exited 1 0 false
    | MainOutcome.runningAll => ProcState.running (mainTasks e).length

/-- C2: a datagram arriving on the remote-facing UDP socket is forwarded
unmodified to 127.0.0.1:local_port if and only if its source address and
port exactly equal the configured (remote_host, remote_port); any datagram
from any other source is silently discarded and never reaches the
loopback-facing side. -/
theorem claim_C2 (lp : Nat) (host : String) (rp : Nat)
    (data : List Nat) (addr : Addr) :
    (RemoteUDPProtocol.datagram_received (UDPProxy.started lp host rp) data addr
        = UdpEffect.sent data ("127.0.0.1", lp) ↔ addr = (host, rp))
    ∧ (addr ≠ (host, rp) →
        RemoteUDPProtocol.datagram_received (UDPProxy.started lp host rp) data addr
          = UdpEffect.dropped) := by
  have hred : RemoteUDPProtocol.datagram_received (UDPProxy.started lp host rp) data addr
      = if addr = (host, rp) then UdpEffect.sent data ("127.0.0.1", lp)
        else UdpEffect.dropped := by
    simp [RemoteUDPProtocol.datagram_received, UDPProxy.started, UDPProxy.init,
      UDPProxy.startPhase1, UDPProxy.startPhase2]
  rcases eq_or_ne addr (host, rp) with he | hne
  · subst he; simp [hred]
  · simp [hred, hne]

theorem claim_C2_witness :
    (RemoteUDPProtocol.datagram_received (UDPProxy.started 5004 "192.168.2.2" 5004)
        [128, 96] ("192.168.2.2", 5004)
        = UdpEffect.sent [128, 96] ("127.0.0.1", 5004)
      ↔ (("192.168.2.2", 5004) : Addr) = ("192.168.2.2", 5004))
    ∧ ((("192.168.2.2", 5004) : Addr) ≠ ("192.168.2.2", 5004) →
        RemoteUDPProtocol.datagram_received (UDPProxy.started 5004 "192.168.2.2" 5004)
          [128, 96] ("192.168.2.2", 5004) = UdpEffect.dropped) :=
  claim_C2 5004 "192.168.2.2" 5004 [128, 96] ("192.168.2.2", 5004)

/-- C3: a datagram arriving on the loopback-facing UDP socket is forwarded
unmodified to (remote_host, remote_port) if and only if its source address
is 127.0.0.1 (from any source port); datagrams from any other source
address are silently discarded and never reach the remote-facing side. -/
theorem claim_C3 (lp : Nat) (host : String) (rp : Nat)
    (data : List Nat) (addr : Addr) :
    (LocalUDPProtocol.datagram_received (UDPProxy.started lp host rp) data addr
        = UdpEffect.sent data (host, rp) ↔ addr.1 = "127.0.0.1")
    ∧ (addr.1 ≠ "127.0.0.1" →
        LocalUDPProtocol.datagram_received (UDPProxy.started lp host rp) data addr
          = UdpEffect.dropped) := by
  have hred : LocalUDPProtocol.datagram_received (UDPProxy.started lp host rp) data addr
      = if addr.1 = "127.0.0.1" then UdpEffect.sent data (host, rp)
        else UdpEffect.dropped := by
    simp [LocalUDPProtocol.datagram_received, UDPProxy.started, UDPProxy.init,
      UDPProxy.startPhase1, UDPProxy.startPhase2]
  by_cases hl : addr.1 = "127.0.0.1"
  · simp [hred, hl]
  · simp [hred, hl]

theorem claim_C3_witness :
    (LocalUDPProtocol.datagram_received (UDPProxy.started 5004 "192.168.2.2" 5004)
        [128, 96] ("127.0.0.1", 49152)
        = UdpEffect.sent [128, 96] ("192.168.2.2", 5004)
      ↔ (("127.0.0.1", 49152) : Addr).1 = "127.0.0.1")
    ∧ ((("127.0.0.1", 49152) : Addr).1 ≠ "127.0.0.1" →
        LocalUDPProtocol.datagram_received (UDPProxy.started 5004 "192.168.2.2" 5004)
          [128, 96] ("127.0.0.1", 49152) = UdpEffect.dropped) :=
  claim_C3 5004 "192.168.2.2" 5004 [128, 96] ("127.0.0.1", 49152)

/-- C10: the per-datagram forward-or-drop decision is a pure function of
the receiving socket, the source address and the fixed proxy state; for two
datagrams arriving on the same socket from the same source the decision is
identical regardless of payload, and whenever a datagram is forwarded the
payload is unchanged and the destination is the fixed configured address
for that direction (remote_addr for the loopback-facing socket,
127.0.0.1:local_port for the remote-facing socket). Determinism itself is
inherent: both callbacks are total functions of (proxy, data, addr). -/
theorem claim_C10 (p : UDPProxy) (d1 d2 : List Nat) (addr : Addr) :
    ((LocalUDPProtocol.datagram_received p d1 addr).decision
        = (LocalUDPProtocol.datagram_received p d2 addr).decision)
    ∧ ((RemoteUDPProtocol.datagram_received p d1 addr).decision
        = (RemoteUDPProtocol.datagram_received p d2 addr).decision)
    ∧ (∀ pay dest, LocalUDPProtocol.datagram_received p d1 addr
        = UdpEffect.sent pay dest → pay = d1 ∧ dest = p.remote_addr)
    ∧ (∀ pay dest, RemoteUDPProtocol.datagram_received p d1 addr
        = UdpEffect.sent pay dest → pay = d1 ∧ dest = ("127.0.0.1", p.local_port)) := by
  refine ⟨?_, ?_, ?_, ?_⟩
  · unfold LocalUDPProtocol.datagram_received
    by_cases hl : addr.1 = "127.0.0.1"
    · rw [if_pos hl, if_pos hl]
      cases p.remote_transport <;> rfl
    · rw [if_neg hl, if_neg hl]
  · unfold RemoteUDPProtocol.datagram_received
    by_cases hr : addr = p.remote_addr
    · rw [if_pos hr, if_pos hr]
      cases p.local_transport <;> rfl
    · rw [if_neg hr, if_neg hr]
  · intro pay dest hsent
    unfold LocalUDPProtocol.datagram_received at hsent
    by_cases hl : addr.1 = "127.0.0.1"
    · rw [if_pos hl] at hsent
      cases hrt : p.remote_transport with
      | some u =>
          rw [hrt] at hsent
          injection hsent with h1 h2
          exact ⟨h1.symm, h2.symm⟩
      | none => rw [hrt] at hsent; simp at hsent
    · rw [if_neg hl] at hsent; simp at hsent
  · intro pay dest hsent
    unfold RemoteUDPProtocol.datagram_received at hsent
    by_cases hr : addr = p.remote_addr
    · rw [if_pos hr] at hsent
      cases hlt : p.local_transport with
      | some u =>
          rw [hlt] at hsent
          injection hsent with h1 h2
          exact ⟨h1.symm, h2.symm⟩
      | none => rw [hlt] at hsent; simp at hsent
    · rw [if_neg hr] at hsent; simp at hsent

theorem claim_C10_witness :
    ((LocalUDPProtocol.datagram_received (UDPProxy.started 5004 "192.168.2.2" 5004)
        [0] ("127.0.0.1", 3)).decision
      = (LocalUDPProtocol.datagram_received (UDPProxy.started 5004 "192.168.2.2" 5004)
        [1, 2] ("127.0.0.1", 3)).decision)
    ∧ ((RemoteUDPProtocol.datagram_received (UDPProxy.started 5004 "192.168.2.2" 5004)
        [0] ("127.0.0.1", 3)).decision
      = (RemoteUDPProtocol.datagram_received (UDPProxy.started 5004 "192.168.2.2" 5004)
        [1, 2] ("127.0.0.1", 3)).decision)
    ∧ (∀ pay dest, LocalUDPProtocol.datagram_received (UDPProxy.started 5004 "192.168.2.2" 5004)
        [0] ("127.0.0.1", 3) = UdpEffect.sent pay dest →
          pay = [0] ∧ dest = (UDPProxy.started 5004 "192.168.2.2" 5004).remote_addr)
    ∧ (∀ pay dest, RemoteUDPProtocol.datagram_received (UDPProxy.started 5004 "192.168.2.2" 5004)
        [0] ("127.0.0.1", 3) = UdpEffect.sent pay dest →
          pay = [0] ∧ dest = ("127.0.0.1", (UDPProxy.started 5004 "192.168.2.2" 5004).local_port)) :=
  claim_C10 (UDPProxy.started 5004 "192.168.2.2" 5004) [0] [1, 2] ("127.0.0.1", 3)

/-- C7 fails on the code: between the two `create_datagram_endpoint` awaits
of `UDPProxy.start`, the loopback-facing socket is already live while
`self.remote_transport` is still `None`; a loopback-sourced datagram in
that window makes `LocalUDPProtocol.datagram_received` dereference the
missing transport (`AttributeError`) instead of operating on an existing
handle. Concrete input: proxy configured as (5004, "192.168.2.2", 5004)
after phase 1 of `start`, datagram `[128, 96]` from ("127.0.0.1", 40000). -/
theorem claim_C7_counterexample :
    (UDPProxy.startPhase1 (UDPProxy.init 5004 "192.168.2.2" 5004)).local_transport = some ()
    ∧ (UDPProxy.startPhase1 (UDPProxy.init 5004 "192.168.2.2" 5004)).remote_transport = none
    ∧ LocalUDPProtocol.datagram_received
        (UDPProxy.startPhase1 (UDPProxy.init 5004 "192.168.2.2" 5004))
        [128, 96] ("127.0.0.1", 40000) = UdpEffect.attrError := by
  refine ⟨rfl, rfl, ?_⟩
  simp [LocalUDPProtocol.datagram_received, UDPProxy.startPhase1, UDPProxy.init]

/-- C7 amended: once `UDPProxy.start` has created both endpoints, every
forwarding step finds the transport handle it uses; the remote-facing
direction finds the loopback transport even in the setup window (the
loopback endpoint is created first); but a datagram from 127.0.0.1 arriving
on the loopback-facing socket between the creation of the loopback-facing
endpoint and the creation of the remote-facing endpoint finds
`remote_transport` unset and its forwarding step fails on the missing
handle (the datagram is not forwarded). -/
theorem claim_C7_amended (lp : Nat) (host : String) (rp : Nat)
    (data : List Nat) (addr : Addr) :
    (LocalUDPProtocol.datagram_received (UDPProxy.started lp host rp) data addr
        ≠ UdpEffect.attrError)
    ∧ (RemoteUDPProtocol.datagram_received (UDPProxy.started lp host rp) data addr
        ≠ UdpEffect.attrError)
    ∧ (RemoteUDPProtocol.datagram_received
        (UDPProxy.startPhase1 (UDPProxy.init lp host rp)) data addr
        ≠ UdpEffect.attrError)
    ∧ (addr.1 = "127.0.0.1" →
        LocalUDPProtocol.datagram_received
          (UDPProxy.startPhase1 (UDPProxy.init lp host rp)) data addr
          = UdpEffect.attrError) := by
  refine ⟨?_, ?_, ?_, ?_⟩
  · unfold LocalUDPProtocol.datagram_received UDPProxy.started UDPProxy.startPhase2
      UDPProxy.startPhase1 UDPProxy.init
    split <;> simp
  · unfold RemoteUDPProtocol.datagram_received UDPProxy.started UDPProxy.startPhase2
      UDPProxy.startPhase1 UDPProxy.init
    split <;> simp
  · unfold RemoteUDPProtocol.datagram_received UDPProxy.startPhase1 UDPProxy.init
    split <;> simp
  · intro hl
    unfold LocalUDPProtocol.datagram_received UDPProxy.startPhase1 UDPProxy.init
    rw [if_pos hl]

theorem claim_C7_amended_witness :
    (LocalUDPProtocol.datagram_received (UDPProxy.started 5004 "192.168.2.2" 5004)
        [128, 96] ("127.0.0.1", 40000) ≠ UdpEffect.attrError)
    ∧ (RemoteUDPProtocol.datagram_received (UDPProxy.started 5004 "192.168.2.2" 5004)
        [128, 96] ("127.0.0.1", 40000) ≠ UdpEffect.attrError)
    ∧ (RemoteUDPProtocol.datagram_received
        (UDPProxy.startPhase1 (UDPProxy.init 5004 "192.168.2.2" 5004))
        [128, 96] ("127.0.0.1", 40000) ≠ UdpEffect.attrError)
    ∧ ((("127.0.0.1", 40000) : Addr).1 = "127.0.0.1" →
        LocalUDPProtocol.datagram_received
          (UDPProxy.startPhase1 (UDPProxy.init 5004 "192.168.2.2" 5004))
          [128, 96] ("127.0.0.1", 40000) = UdpEffect.attrError) :=
  claim_C7_amended 5004 "192.168.2.2" 5004 [128, 96] ("127.0.0.1", 40000)

/-- Unfolding `readsThenEof` one chunk at a time. -/
theorem readsThenEof_cons (c : List Nat) (cs : List (List Nat)) :
    readsThenEof (c :: cs) = PipeEvent.recvOk c true :: readsThenEof cs := rfl

/-- Running the copy loop over a trace of nonempty successful reads
followed by end-of-stream writes exactly the concatenation of the chunks
and exits normally. -/
theorem tcp_pipe_loop_readsThenEof (cs : List (List Nat)) (h : ∀ c ∈ cs, c ≠ []) :
    tcp_pipe_loop (readsThenEof cs) = (cs.flatten, some PipeExit.eof) := by
  induction cs with
  | nil => rfl
  | cons c cs ih =>
      have hc : c ≠ [] := h c (by simp)
      obtain ⟨b, bs, rfl⟩ := List.exists_cons_of_ne_nil hc
      have ih2 := ih (fun x hx => h x (by simp [hx]))
      rw [readsThenEof_cons]
      simp [tcp_pipe_loop, ih2]

/-- A `tcp_pipe` coroutine fed nonempty chunks then end-of-stream writes
exactly their concatenation, closes its writer and raises nothing. -/
theorem tcp_pipe_readsThenEof (cs : List (List Nat)) (wc : Bool)
    (h : ∀ c ∈ cs, c ≠ []) :
    tcp_pipe (readsThenEof cs) wc =
      { written := cs.flatten, exit := some PipeExit.eof,
        writerClosed := true, raises := false } := by
  unfold tcp_pipe
  rw [tcp_pipe_loop_readsThenEof cs h]
  simp [pipe_finally]

/-- C1: for every byte sequence presented on one direction of an
established TCP session — given as its split into the successive nonempty
reads of at most `READ_SIZE` (4096) bytes that `reader.read(4096)`
returns, followed by end-of-stream — the session delivers exactly the
concatenation of those chunks to the peer side, in order, in both the
client-to-remote and the remote-to-client direction. -/
theorem claim_C1 (cs ds : List (List Nat)) (wc1 wc2 : Bool)
    (hcs : ∀ c ∈ cs, c ≠ [] ∧ c.length ≤ READ_SIZE)
    (hds : ∀ d ∈ ds, d ≠ [] ∧ d.length ≤ READ_SIZE) :
    (handle_tcp_client ConnectOutcome.ok
      { clientEvents := readsThenEof cs, remoteEvents := readsThenEof ds,
        clientWaitClosedRaises := wc1, remoteWaitClosedRaises := wc2 }).toRemote
      = cs.flatten
    ∧ (handle_tcp_client ConnectOutcome.ok
      { clientEvents := readsThenEof cs, remoteEvents := readsThenEof ds,
        clientWaitClosedRaises := wc1, remoteWaitClosedRaises := wc2 }).toClient
      = ds.flatten := by
  have h1 := tcp_pipe_readsThenEof cs wc2 (fun c hc => (hcs c hc).1)
  have h2 := tcp_pipe_readsThenEof ds wc1 (fun d hd => (hds d hd).1)
  constructor <;> simp [handle_tcp_client, h1, h2]

theorem claim_C1_witness :
    (handle_tcp_client ConnectOutcome.ok
      { clientEvents := readsThenEof [[71, 69, 84], [32, 47]],
        remoteEvents := readsThenEof [[72, 84, 84, 80]],
        clientWaitClosedRaises := false, remoteWaitClosedRaises := false }).toRemote
      = [[71, 69, 84], [32, 47]].flatten
    ∧ (handle_tcp_client ConnectOutcome.ok
      { clientEvents := readsThenEof [[71, 69, 84], [32, 47]],
        remoteEvents := readsThenEof [[72, 84, 84, 80]],
        clientWaitClosedRaises := false, remoteWaitClosedRaises := false }).toClient
      = [[72, 84, 84, 80]].flatten :=
  claim_C1 [[71, 69, 84], [32, 47]] [[72, 84, 84, 80]] false false
    (by decide) (by decide)

/-- C9: whenever a `tcp_pipe` copy loop exits — end-of-stream, read error,
or write/drain error — the `finally` block has closed the destination
writer; and the whole observable result of the coroutine is unchanged by
whether `wait_closed` raises during teardown, i.e. a failure while waiting
for the close to complete never propagates out of the coroutine. -/
theorem claim_C9 (events : List PipeEvent) (wc : Bool) :
    ((tcp_pipe events wc).exit.isSome = true →
      (tcp_pipe events wc).writerClosed = true)
    ∧ tcp_pipe events true = tcp_pipe events false := by
  rcases h : tcp_pipe_loop events with ⟨w, e⟩
  unfold tcp_pipe
  rw [h]
  cases e <;> simp [pipe_finally]

theorem claim_C9_witness :
    (tcp_pipe [PipeEvent.recvErr] true).writerClosed = true
    ∧ tcp_pipe [PipeEvent.recvErr] true = tcp_pipe [PipeEvent.recvErr] false :=
  ⟨(claim_C9 [PipeEvent.recvErr] true).1 (by decide),
   (claim_C9 [PipeEvent.recvErr] true).2⟩

/-- C6: if the outbound TCP connect fails for an accepted client, that
client's connection is closed immediately with no response bytes, only that
one session is abandoned (its outcome is the closed-without-response
outcome), while the listener still produces an outcome for every accepted
session and every other session's outcome is exactly the one its own
connect result and socket streams determine. -/
theorem claim_C6 (sessions : List SessionInput) (i j : Nat)
    (si sj : SessionInput)
    (hi : sessions[i]? = some si) (hj : sessions[j]? = some sj)
    (hfail : si.connect = ConnectOutcome.connectError) :
    (serveClients sessions).length = sessions.length
    ∧ (serveClients sessions)[i]? = some
        { toRemote := [], toClient := [], clientClosed := true, remoteClosed := false }
    ∧ (serveClients sessions)[j]? = some
        (handle_tcp_client sj.connect sj.streams) := by
  refine ⟨by simp [serveClients], ?_, ?_⟩
  · simp [serveClients, List.getElem?_map, hi, handle_tcp_client, hfail]
  · simp [serveClients, List.getElem?_map, hj]

/-- A concrete session whose outbound connect fails (used as test input). -/
def sessConnFail : SessionInput :=
  { connect := ConnectOutcome.connectError
    streams := { clientEvents := [], remoteEvents := [],
                 clientWaitClosedRaises := false, remoteWaitClosedRaises := false } }

/-- A concrete session whose outbound connect succeeds (used as test input). -/
def sessConnOk : SessionInput :=
  { connect := ConnectOutcome.ok
    streams := { clientEvents := readsThenEof [[1]], remoteEvents := readsThenEof [],
                 clientWaitClosedRaises := false, remoteWaitClosedRaises := false } }

theorem claim_C6_witness :
    (serveClients [sessConnFail, sessConnOk]).length = ([sessConnFail, sessConnOk] : List SessionInput).length
    ∧ (serveClients [sessConnFail, sessConnOk])[0]? = some
        { toRemote := [], toClient := [], clientClosed := true, remoteClosed := false }
    ∧ (serveClients [sessConnFail, sessConnOk])[1]? = some
        (handle_tcp_client sessConnOk.connect sessConnOk.streams) :=
  claim_C6 [sessConnFail, sessConnOk] 0 1 sessConnFail sessConnOk rfl rfl rfl

/-- The session invariant holds when `gather` starts the two pipes. -/
theorem sessInv_init (cin rin : List ReadEv) : SessInv (SessState.init cin rin) := by
  simp [SessInv, SessState.init]

/-- Every interleaved step of the session preserves the invariant. -/
theorem sessStep_preserves_inv (s s' : SessState) (h : SessInv s)
    (hs : SessStep s s') : SessInv s' := by
  rcases h with ⟨h1, h2⟩
  cases hs <;> constructor <;> simp_all [SessInv]

/-- Trace state 1 of the execution refuting C4: the remote-sent chunk [9]
has been fed into the remote reader's buffer; nothing read yet. -/
def sessCex1 : SessState :=
  { cin := [ReadEv.data []], rin := [], cbuf := [], rbuf := [[9]]
    cClosed := false, rClosed := false, p1 := true, p2 := true
    rDeliv := [], cDeliv := [] }

/-- Trace state 2: pipe 1 observed the client's end-of-stream, stopped and
closed the remote transport; the chunk [9] is still buffered. -/
def sessCex2 : SessState :=
  { cin := [], rin := [], cbuf := [], rbuf := [[9]]
    cClosed := false, rClosed := true, p1 := false, p2 := true
    rDeliv := [], cDeliv := [] }

/-- Trace state 3: pipe 2 has read the buffered chunk and delivered it to
the client — after pipe 1 stopped. -/
def sessCex3 : SessState :=
  { cin := [], rin := [], cbuf := [], rbuf := []
    cClosed := false, rClosed := true, p1 := false, p2 := true
    rDeliv := [], cDeliv := [9] }

/-- C4 fails on the code: a remote-sent chunk that the event loop already
fed into the remote reader's buffer is still relayed to the client after
the client-to-remote loop observed end-of-stream and closed the remote
transport, because asyncio's `transport.close()` feeds EOF but leaves
already-buffered data readable. Concrete trace from the session start with
client events `[data []]` (immediate end-of-stream) and remote events
`[data [9]]`: the chunk [9] is buffered; pipe 1 observes EOF, stops and
closes the remote transport (`cDeliv` still empty); pipe 2 then reads the
buffered chunk and delivers [9] — further bytes are relayed after one loop
observed end-of-stream, contradicting the claim. -/
theorem claim_C4_counterexample :
    SessStep (SessState.init [ReadEv.data []] [ReadEv.data [9]]) sessCex1
    ∧ SessStep sessCex1 sessCex2
    ∧ sessCex2.p1 = false ∧ sessCex2.rClosed = true ∧ sessCex2.cDeliv = []
    ∧ SessStep sessCex2 sessCex3
    ∧ sessCex3.cDeliv = [9] := by
  refine ⟨?_, ?_, rfl, rfl, rfl, ?_, rfl⟩
  · exact SessStep.feed_r _ 9 [] [] rfl rfl
  · exact SessStep.p1_eof _ [] rfl rfl rfl rfl
  · exact SessStep.p2_read_buf _ [9] [] rfl rfl

/-- C4 amended: once either copy loop has observed end-of-stream or a
read/write error (that pipe stopped and, by the session invariant, closed
the transport it was writing to), every further step of the session keeps
that pipe stopped and its transport closed, relays no bytes in that pipe's
direction, accepts no new network data on the closed transport, and can
grow the opposite-direction delivery only by consuming the head chunk
already buffered in the surviving pipe's reader — a buffer that never
grows again; moreover, while the surviving pipe runs a step always exists,
and once its buffer is drained a terminating step is enabled that stops it
and closes the remaining transport. So after either loop observes
end-of-stream or an error, both loops stop and both transports are closed
after relaying at most the chunks already buffered at that moment. -/
theorem claim_C4_amended (s : SessState) (hinv : SessInv s) :
    (s.p1 = false →
      (∀ s', SessStep s s' →
        s'.p1 = false ∧ s'.rClosed = true ∧ s'.rDeliv = s.rDeliv
        ∧ s'.rin = s.rin ∧ s'.rbuf.length ≤ s.rbuf.length
        ∧ (s'.cDeliv = s.cDeliv
            ∨ ∃ c, s.rbuf.head? = some c ∧ s'.cDeliv = s.cDeliv ++ c
                ∧ s'.rbuf = s.rbuf.tail))
      ∧ (s.p2 = true → ∃ s', SessStep s s')
      ∧ (s.p2 = true → s.rbuf = [] →
          ∃ s', SessStep s s' ∧ s'.p2 = false ∧ s'.cClosed = true))
    ∧ (s.p2 = false →
      (∀ s', SessStep s s' →
        s'.p2 = false ∧ s'.cClosed = true ∧ s'.cDeliv = s.cDeliv
        ∧ s'.cin = s.cin ∧ s'.cbuf.length ≤ s.cbuf.length
        ∧ (s'.rDeliv = s.rDeliv
            ∨ ∃ c, s.cbuf.head? = some c ∧ s'.rDeliv = s.rDeliv ++ c
                ∧ s'.cbuf = s.cbuf.tail))
      ∧ (s.p1 = true → ∃ s', SessStep s s')
      ∧ (s.p1 = true → s.cbuf = [] →
          ∃ s', SessStep s s' ∧ s'.p1 = false ∧ s'.rClosed = true)) := by
  rcases hinv with ⟨h1, h2⟩
  constructor
  · intro hp
    have hrc : s.rClosed = true := h1.mpr hp
    refine ⟨?_, ?_, ?_⟩
    · intro s' hs
      cases hs <;> simp_all [Nat.le_succ]
    · intro hp2
      rcases hb : s.rbuf with _ | ⟨c, t⟩
      · exact ⟨_, SessStep.p2_closedEof s hp2 hrc hb⟩
      · exact ⟨_, SessStep.p2_read_buf s c t hp2 hb⟩
    · intro hp2 hb
      exact ⟨_, SessStep.p2_closedEof s hp2 hrc hb, rfl, rfl⟩
  · intro hp
    have hcc : s.cClosed = true := h2.mpr hp
    refine ⟨?_, ?_, ?_⟩
    · intro s' hs
      cases hs <;> simp_all [Nat.le_succ]
    · intro hp1
      rcases hb : s.cbuf with _ | ⟨c, t⟩
      · exact ⟨_, SessStep.p1_closedEof s hp1 hcc hb⟩
      · exact ⟨_, SessStep.p1_read_buf s c t hp1 hb⟩
    · intro hp1 hb
      exact ⟨_, SessStep.p1_closedEof s hp1 hcc hb, rfl, rfl⟩

theorem claim_C4_amended_witness :
    (sessCex2.p1 = false →
      (∀ s', SessStep sessCex2 s' →
        s'.p1 = false ∧ s'.rClosed = true ∧ s'.rDeliv = sessCex2.rDeliv
        ∧ s'.rin = sessCex2.rin ∧ s'.rbuf.length ≤ sessCex2.rbuf.length
        ∧ (s'.cDeliv = sessCex2.cDeliv
            ∨ ∃ c, sessCex2.rbuf.head? = some c ∧ s'.cDeliv = sessCex2.cDeliv ++ c
                ∧ s'.rbuf = sessCex2.rbuf.tail))
      ∧ (sessCex2.p2 = true → ∃ s', SessStep sessCex2 s')
      ∧ (sessCex2.p2 = true → sessCex2.rbuf = [] →
          ∃ s', SessStep sessCex2 s' ∧ s'.p2 = false ∧ s'.cClosed = true))
    ∧ (sessCex2.p2 = false →
      (∀ s', SessStep sessCex2 s' →
        s'.p2 = false ∧ s'.cClosed = true ∧ s'.cDeliv = sessCex2.cDeliv
        ∧ s'.cin = sessCex2.cin ∧ s'.cbuf.length ≤ sessCex2.cbuf.length
        ∧ (s'.rDeliv = sessCex2.rDeliv
            ∨ ∃ c, sessCex2.cbuf.head? = some c ∧ s'.rDeliv = sessCex2.rDeliv ++ c
                ∧ s'.cbuf = sessCex2.cbuf.tail))
      ∧ (sessCex2.p1 = true → ∃ s', SessStep sessCex2 s')
      ∧ (sessCex2.p1 = true → sessCex2.cbuf = [] →
          ∃ s', SessStep sessCex2 s' ∧ s'.p1 = false ∧ s'.rClosed = true)) :=
  claim_C4_amended sessCex2 (by decide)

/-- A UDP proxy task fails to start whenever its loopback bind fails. -/
theorem startTask_failed_of_local (r : Bool) :
    UDPProxy.startTask false r = TaskOutcome.startFailed := rfl

/-- A UDP proxy task fails to start whenever its remote endpoint setup
fails. -/
theorem startTask_failed_of_remote (l : Bool) :
    UDPProxy.startTask l false = TaskOutcome.startFailed := by
  cases l <;> rfl

/-- If any of the five socket-creation steps fails, `main` raises. -/
theorem tunnelMain_raised_of_fail (e : StartEnv)
    (hfail : e.httpBindOk = false ∨ e.rtpLocalBindOk = false
      ∨ e.rtpRemoteSetupOk = false ∨ e.dataLocalBindOk = false
      ∨ e.dataRemoteSetupOk = false) :
    tunnelMain e = MainOutcome.raised := by
  rcases e with ⟨hb, rl, rr, dl, dr⟩
  cases hb <;> cases rl <;> cases rr <;> cases dl <;> cases dr <;>
    simp_all [tunnelMain, mainTasks, start_tcp_forward, UDPProxy.startTask]

/-- C5: if any one forwarder fails to start (its bind or endpoint creation
raises), the whole process exits with a non-zero status and zero forwarders
left running — never a partially-started tunnel. -/
theorem claim_C5 (argv : List String) (e : StartEnv)
    (hargs : argv.length = 2)
    (hfail : e.httpBindOk = false ∨ e.rtpLocalBindOk = false
      ∨ e.rtpRemoteSetupOk = false ∨ e.dataLocalBindOk = false
      ∨ e.dataRemoteSetupOk = false) :
    ∃ code, pythonProcess argv e = ProcState.exited code 0 false ∧ code ≠ 0 := by
  have hm := tunnelMain_raised_of_fail e hfail
  refine ⟨1, ?_, one_ne_zero⟩
  simp [pythonProcess, hargs, hm]

theorem claim_C5_witness :
    ∃ code, pythonProcess ["rtc-tunnel.py", "192.168.2.2"]
        { httpBindOk := false, rtpLocalBindOk := true, rtpRemoteSetupOk := true,
          dataLocalBindOk := true, dataRemoteSetupOk := true }
      = ProcState.exited code 0 false ∧ code ≠ 0 :=
  claim_C5 ["rtc-tunnel.py", "192.168.2.2"]
    { httpBindOk := false, rtpLocalBindOk := true, rtpRemoteSetupOk := true,
      dataLocalBindOk := true, dataRemoteSetupOk := true }
    rfl (Or.inl rfl)

/-- C8: the process takes exactly one positional argument (so `sys.argv`
has length 2, the script name plus the remote host); with a missing or
extra argument it prints the usage text and exits with status 1 before any
forwarder is started — the result does not depend on whether any socket
could have been bound. -/
theorem claim_C8 (argv : List String) (e e2 : StartEnv)
    (h : argv.length ≠ 2) :
    pythonProcess argv e = ProcState.exited 1 0 true
    ∧ pythonProcess argv e = pythonProcess argv e2 := by
  constructor <;> simp [pythonProcess, h]

theorem claim_C8_witness :
    pythonProcess ["rtc-tunnel.py"]
        { httpBindOk := true, rtpLocalBindOk := true, rtpRemoteSetupOk := true,
          dataLocalBindOk := true, dataRemoteSetupOk := true }
      = ProcState.exited 1 0 true
    ∧ pythonProcess ["rtc-tunnel.py"]
        { httpBindOk := true, rtpLocalBindOk := true, rtpRemoteSetupOk := true,
          dataLocalBindOk := true, dataRemoteSetupOk := true }
      = pythonProcess ["rtc-tunnel.py"]
        { httpBindOk := false, rtpLocalBindOk := false, rtpRemoteSetupOk := false,
          dataLocalBindOk := false, dataRemoteSetupOk := false } :=
  claim_C8 ["rtc-tunnel.py"]
    { httpBindOk := true, rtpLocalBindOk := true, rtpRemoteSetupOk := true,
      dataLocalBindOk := true, dataRemoteSetupOk := true }
    { httpBindOk := false, rtpLocalBindOk := false, rtpRemoteSetupOk := false,
      dataLocalBindOk := false, dataRemoteSetupOk := false }
    (by decide)
